import Mathlib

/-!
Shallow embedding of `src/kserve-api/main.py` (CalvinCode Deployment API):
a FastAPI service that deploys apps as Knative Services, reconciles
DomainMappings for custom domains, purges the Cloudflare cache, and
warms the service up.  Process-level configuration (the environment
variables `DEFAULT_NAMESPACE` and `DOMAIN`) is modelled by a `Config`
record; the Kubernetes control plane is modelled by an explicit
`ClusterState` plus fault-injection parameters for the individual API
calls; the CDN and warm-up HTTP calls are modelled by explicit response
oracles.  Side effects that only log are recorded in an event trace.
-/

namespace KserveApi

/-- Process configuration: the `DEFAULT_NAMESPACE` and `DOMAIN` environment
variables read at module load (main.py lines 36-37). -/
structure Config where
  defaultNamespace : String
  domain : String
  deriving Repr, DecidableEq

/-- One container environment variable, as the dict `{"name": k, "value": v}`
built in `create_knative_service_spec` (main.py line 65). -/
structure EnvEntry where
  name : String
  value : String
  deriving Repr, DecidableEq

/-- The Knative Service desired-state document returned by
`create_knative_service_spec` (main.py lines 71-112), with the nested dict
flattened into one record: every literal field of the dict is a field here. -/
structure KnativeServiceDoc where
  apiVersion : String
  kind : String
  metadataName : String
  labelApp : String
  labelManagedBy : String
  annotationMinScale : String
  annotationMaxScale : String
  annotationTarget : String
  image : String
  env : List EnvEntry
  containerPort : Nat
  portProtocol : String
  requestsCpu : String
  requestsMemory : String
  limitsCpu : String
  limitsMemory : String
  deriving Repr, DecidableEq

/-- The DomainMapping desired-state document returned by
`create_domain_mapping_spec` (main.py lines 117-131), flattened. -/
structure DomainMappingDoc where
  apiVersion : String
  kind : String
  metadataName : String
  metadataNamespace : String
  refName : String
  refKind : String
  refApiVersion : String
  deriving Repr, DecidableEq

/-- Mirrors `create_knative_service_spec(name, image, envs)` (main.py
lines 61-112): user env entries in insertion order, then the injected
`SERVICE_URL` entry appended, then the literal document fields. -/
def create_knative_service_spec (cfg : Config) (name image : String)
    (envs : List EnvEntry) : KnativeServiceDoc :=
  let env_list := envs.map (fun e => EnvEntry.mk e.name e.value)
  let service_url := "https://" ++ name ++ "." ++ cfg.domain
  let env_list := env_list ++ [EnvEntry.mk "SERVICE_URL" service_url]
  { apiVersion := "serving.knative.dev/v1"
    kind := "Service"
    metadataName := name
    labelApp := name
    labelManagedBy := "calvincode"
    annotationMinScale := "0"
    annotationMaxScale := "10"
    annotationTarget := "100"
    image := image
    env := env_list
    containerPort := 8080
    portProtocol := "TCP"
    requestsCpu := "100m"
    requestsMemory := "128Mi"
    limitsCpu := "1"
    limitsMemory := "512Mi" }

/-- Mirrors `create_domain_mapping_spec(domain_name, service_name, namespace)`
(main.py lines 115-131). -/
def create_domain_mapping_spec (domain_name service_name ns : String) :
    DomainMappingDoc :=
  { apiVersion := "serving.knative.dev/v1beta1"
    kind := "DomainMapping"
    metadataName := domain_name
    metadataNamespace := ns
    refName := service_name
    refKind := "Service"
    refApiVersion := "serving.knative.dev/v1" }

/-- A Kubernetes `ApiException`: the HTTP status and reason carried by the
exceptions raised by the control-plane client. -/
structure ApiErr where
  status : Nat
  reason : String
  deriving Repr, DecidableEq

/-- The error surfaced to the HTTP caller (`HTTPException(status_code, detail)`). -/
structure HTTPErr where
  statusCode : Nat
  detail : String
  deriving Repr, DecidableEq

/-- Cluster-resident resources, keyed by (namespace, resource name):
the Knative Service collection and the DomainMapping collection. -/
structure ClusterState where
  services : List ((String × String) × KnativeServiceDoc)
  domainMappings : List ((String × String) × DomainMappingDoc)
  deriving Repr, DecidableEq

/-- Look up a Knative Service by namespace and name. -/
def ClusterState.lookupService (st : ClusterState) (ns name : String) :
    Option KnativeServiceDoc :=
  (st.services.find? (fun e => e.1.1 == ns && e.1.2 == name)).map (·.2)

/-- Look up a DomainMapping by namespace and hostname. -/
def ClusterState.lookupDM (st : ClusterState) (ns domain_name : String) :
    Option DomainMappingDoc :=
  (st.domainMappings.find? (fun e => e.1.1 == ns && e.1.2 == domain_name)).map (·.2)

/-- Store (create or replace) a Knative Service under (ns, name). -/
def ClusterState.putService (st : ClusterState) (ns name : String)
    (doc : KnativeServiceDoc) : ClusterState :=
  { st with services :=
      ((ns, name), doc) ::
        st.services.filter (fun e => !(e.1.1 == ns && e.1.2 == name)) }

/-- Remove a Knative Service under (ns, name). -/
def ClusterState.removeService (st : ClusterState) (ns name : String) :
    ClusterState :=
  { st with services := st.services.filter (fun e => !(e.1.1 == ns && e.1.2 == name)) }

/-- Store a DomainMapping under (ns, hostname). -/
def ClusterState.putDM (st : ClusterState) (ns domain_name : String)
    (doc : DomainMappingDoc) : ClusterState :=
  { st with domainMappings :=
      ((ns, domain_name), doc) ::
        st.domainMappings.filter (fun e => !(e.1.1 == ns && e.1.2 == domain_name)) }

/-- Remove a DomainMapping under (ns, hostname). -/
def ClusterState.removeDM (st : ClusterState) (ns domain_name : String) :
    ClusterState :=
  { st with domainMappings :=
      st.domainMappings.filter (fun e => !(e.1.1 == ns && e.1.2 == domain_name)) }

/-- Fault injection for one control-plane call: `some e` makes the call raise
`ApiException` `e` instead of acting on the cluster state. -/
abbrev Fault := Option ApiErr

/-- The raw `custom_api.get_namespaced_custom_object` call for the Service
collection: raises the injected fault if any, raises 404 when the resource is
absent, otherwise returns the stored document. -/
def k8s_get_service (f : Fault) (st : ClusterState) (ns name : String) :
    Except ApiErr KnativeServiceDoc :=
  match f with
  | some e => .error e
  | none =>
    match st.lookupService ns name with
    | some doc => .ok doc
    | none => .error ⟨404, "Not Found"⟩

/-- The raw `custom_api.create_namespaced_custom_object` call for the Service
collection: raises the injected fault if any, raises 409 on an existing name,
otherwise stores the document. -/
def k8s_create_service (f : Fault) (st : ClusterState) (ns : String)
    (body : KnativeServiceDoc) : Except ApiErr ClusterState :=
  match f with
  | some e => .error e
  | none =>
    match st.lookupService ns body.metadataName with
    | some _ => .error ⟨409, "Conflict"⟩
    | none => .ok (st.putService ns body.metadataName body)

/-- The raw `custom_api.patch_namespaced_custom_object` call for the Service
collection: the whole desired document replaces the stored one. -/
def k8s_patch_service (f : Fault) (st : ClusterState) (ns name : String)
    (body : KnativeServiceDoc) : Except ApiErr ClusterState :=
  match f with
  | some e => .error e
  | none =>
    match st.lookupService ns name with
    | some _ => .ok (st.putService ns name body)
    | none => .error ⟨404, "Not Found"⟩

/-- The raw `custom_api.delete_namespaced_custom_object` call for the Service
collection. -/
def k8s_delete_service (f : Fault) (st : ClusterState) (ns name : String) :
    Except ApiErr ClusterState :=
  match f with
  | some e => .error e
  | none =>
    match st.lookupService ns name with
    | some _ => .ok (st.removeService ns name)
    | none => .error ⟨404, "Not Found"⟩

/-- The raw get call for the DomainMapping collection. -/
def k8s_get_dm (f : Fault) (st : ClusterState) (ns domain_name : String) :
    Except ApiErr DomainMappingDoc :=
  match f with
  | some e => .error e
  | none =>
    match st.lookupDM ns domain_name with
    | some doc => .ok doc
    | none => .error ⟨404, "Not Found"⟩

/-- The raw create call for the DomainMapping collection. -/
def k8s_create_dm (f : Fault) (st : ClusterState) (ns : String)
    (body : DomainMappingDoc) : Except ApiErr ClusterState :=
  match f with
  | some e => .error e
  | none =>
    match st.lookupDM ns body.metadataName with
    | some _ => .error ⟨409, "Conflict"⟩
    | none => .ok (st.putDM ns body.metadataName body)

/-- The raw delete call for the DomainMapping collection. -/
def k8s_delete_dm (f : Fault) (st : ClusterState) (ns domain_name : String) :
    Except ApiErr ClusterState :=
  match f with
  | some e => .error e
  | none =>
    match st.lookupDM ns domain_name with
    | some _ => .ok (st.removeDM ns domain_name)
    | none => .error ⟨404, "Not Found"⟩

/-- Mirrors `get_knative_service(name, namespace)` (main.py lines 134-147):
a 404 from the control plane becomes `none`; any other `ApiException`
propagates. -/
def get_knative_service (f : Fault) (st : ClusterState) (name ns : String) :
    Except ApiErr (Option KnativeServiceDoc) :=
  match k8s_get_service f st ns name with
  | .ok doc => .ok (some doc)
  | .error e => if e.status == 404 then .ok none else .error e

/-- Mirrors `get_domain_mapping(domain_name, namespace)` (main.py
lines 150-163). -/
def get_domain_mapping (f : Fault) (st : ClusterState) (domain_name ns : String) :
    Except ApiErr (Option DomainMappingDoc) :=
  match k8s_get_dm f st ns domain_name with
  | .ok doc => .ok (some doc)
  | .error e => if e.status == 404 then .ok none else .error e

/-- Behavior of one `requests.post` to the Cloudflare purge endpoint:
either an HTTP response (status code, body text) or a raised transport
exception. -/
inductive CdnBehavior where
  | status : Nat → String → CdnBehavior
  | transportError : String → CdnBehavior
  deriving Repr, DecidableEq

/-- Behavior of the warm-up `requests.get`: a response, a
`requests.exceptions.Timeout`, or another exception. -/
inductive HttpBehavior where
  | status : Nat → HttpBehavior
  | timeout : HttpBehavior
  | failure : String → HttpBehavior
  deriving Repr, DecidableEq

/-- Observable side effects of a request, recorded in order: domain-mapping
reconciliation outcomes, cache-purge calls with their logged outcome, the
propagation sleep, and the warm-up call with its logged outcome. -/
inductive Event where
  | dmCreated : String → String → String → Event
  | dmExists : String → Event
  | dmFailed : String → Nat → String → Event
  | purgedOk : String → Event
  | purgeFailedStatus : String → Nat → String → Event
  | purgeError : String → String → Event
  | slept : Nat → Event
  | warmOk : String → Nat → Event
  | warmTimedOut : String → Event
  | warmFailed : String → String → Event
  deriving Repr, DecidableEq

/-- Mirrors `create_or_update_domain_mapping(domain_name, service_name,
namespace)` (main.py lines 166-189): look up the mapping, create it when
absent, log when present; every `ApiException` is caught and logged, so the
function always returns (never raises). -/
def create_or_update_domain_mapping (fGet fCreate : Fault) (st : ClusterState)
    (domain_name service_name ns : String) : ClusterState × List Event :=
  match get_domain_mapping fGet st domain_name ns with
  | .error e => (st, [.dmFailed domain_name e.status e.reason])
  | .ok existing =>
    let mapping_spec := create_domain_mapping_spec domain_name service_name ns
    match existing with
    | none =>
      match k8s_create_dm fCreate st ns mapping_spec with
      | .ok st1 => (st1, [.dmCreated domain_name service_name ns])
      | .error e => (st, [.dmFailed domain_name e.status e.reason])
    | some _ => (st, [.dmExists domain_name])

/-- Mirrors `delete_domain_mapping(domain_name, namespace)` (main.py
lines 191-208): look up the mapping and delete it when present; every
`ApiException` is caught and logged.  (Dead code in the deletion endpoint:
`delete_app` never calls it.) -/
def delete_domain_mapping (fGet fDelete : Fault) (st : ClusterState)
    (domain_name ns : String) : ClusterState × List Event :=
  match get_domain_mapping fGet st domain_name ns with
  | .error e => (st, [.dmFailed domain_name e.status e.reason])
  | .ok existing =>
    match existing with
    | none => (st, [])
    | some _ =>
      match k8s_delete_dm fDelete st ns domain_name with
      | .ok st1 => (st1, [])
      | .error e => (st, [.dmFailed domain_name e.status e.reason])

/-- Mirrors `purge_cloudflare_cache(domain)` (main.py lines 211-234): the
whole body is inside a blanket `try/except`, so the function only ever logs.
A 200 response logs success; any other status logs a warning; a transport
exception logs an error.  The return type carries no error channel: the
purge can never fail the caller. -/
def purge_cloudflare_cache (domain : String) (resp : CdnBehavior) : Event :=
  match resp with
  | .status code text =>
    if code == 200 then .purgedOk domain
    else .purgeFailedStatus domain code text
  | .transportError msg => .purgeError domain msg

/-- Mirrors `warm_up_service(service_url)` (main.py lines 237-247): one GET
with a 15s timeout; timeout and any other failure are logged only. -/
def warm_up_service (service_url : String) (resp : HttpBehavior) : Event :=
  match resp with
  | .status code => .warmOk service_url code
  | .timeout => .warmTimedOut service_url
  | .failure msg => .warmFailed service_url msg

/-- Mirrors the `DeploymentRequest` pydantic model (main.py lines 45-50);
`namespace` is resolved to `DEFAULT_NAMESPACE` by the model default, so here
it is a plain field. -/
structure DeploymentRequest where
  name : String
  image : String
  envs : List EnvEntry
  «namespace» : String
  custom_domain : Option String
  deriving Repr, DecidableEq

/-- Mirrors the `DeploymentResponse` pydantic model (main.py lines 53-58). -/
structure DeploymentResponse where
  name : String
  «namespace» : String
  action : String
  status : String
  url : Option String
  deriving Repr, DecidableEq

/-- Faults and external-call behaviors for one `/deploy` request, in the
order the calls are issued. -/
structure DeployEnv where
  getService : Fault
  createService : Fault
  patchService : Fault
  getDM : Fault
  createDM : Fault
  cdnCustom : CdnBehavior
  cdnSubdomain : CdnBehavior
  warmup : HttpBehavior
  deriving Repr, DecidableEq

/-- Result of one request: the HTTP-level outcome, the cluster state after
the request, and the recorded side-effect trace. -/
instance {ε α : Type} [DecidableEq ε] [DecidableEq α] : DecidableEq (Except ε α) := by
  intro a b
  cases a <;> cases b <;>
    first
      | exact decidable_of_iff _ (propext_iff.mp (Except.error.injEq _ _)).symm
      | exact decidable_of_iff _ (propext_iff.mp (Except.ok.injEq _ _)).symm
      | exact isFalse (by intro h; cases h)

structure Run (α : Type) where
  result : Except HTTPErr α
  state : ClusterState
  events : List Event
  deriving DecidableEq

/-- Mirrors `deploy_app(request)` (main.py lines 770-854): check existence,
build the spec, create or patch (action `created`/`updated`), then for a
custom domain reconcile its DomainMapping and purge its cache, purge the
subdomain cache, sleep 3s, warm up, and answer success.  An `ApiException`
escaping the body becomes `HTTPException(e.status, e.reason)`. -/
def deploy_app (cfg : Config) (env : DeployEnv) (st : ClusterState)
    (request : DeploymentRequest) : Run DeploymentResponse :=
  let ns := request.namespace
  let name := request.name
  match get_knative_service env.getService st name ns with
  | .error e => ⟨.error ⟨e.status, e.reason⟩, st, []⟩
  | .ok existing =>
    let knative_service := create_knative_service_spec cfg name request.image request.envs
    let upsert : Except ApiErr (String × ClusterState) :=
      match existing with
      | none =>
        match k8s_create_service env.createService st ns knative_service with
        | .ok st1 => .ok ("created", st1)
        | .error e => .error e
      | some _ =>
        match k8s_patch_service env.patchService st ns name knative_service with
        | .ok st1 => .ok ("updated", st1)
        | .error e => .error e
    match upsert with
    | .error e => ⟨.error ⟨e.status, e.reason⟩, st, []⟩
    | .ok (action, st1) =>
      let subdomain := name ++ "." ++ cfg.domain
      let clean_url := "https://" ++ subdomain
      let (st2, customEvents) :=
        match request.custom_domain with
        | some custom =>
          let (st', evs) :=
            create_or_update_domain_mapping env.getDM env.createDM st1 custom name ns
          (st', evs ++ [purge_cloudflare_cache custom env.cdnCustom])
        | none => (st1, [])
      let tailEvents :=
        [purge_cloudflare_cache subdomain env.cdnSubdomain,
         .slept 3,
         warm_up_service clean_url env.warmup]
      ⟨.ok ⟨name, ns, action, "success", some clean_url⟩, st2,
        customEvents ++ tailEvents⟩

/-- The body of the `{"name":…, "namespace":…, "status":"deleted"}` reply of
the delete endpoint (main.py lines 939-943). -/
structure DeleteResponse where
  name : String
  «namespace» : String
  status : String
  deriving Repr, DecidableEq

/-- Mirrors `delete_app(namespace, name)` (main.py lines 918-946): check
existence via `get_knative_service` (absence is a 404 to the caller), then
delete the Knative Service; no DomainMapping is touched (the code's comment
notes custom mappings must be deleted manually and the subdomain has no
mapping).  An `ApiException` becomes `HTTPException(e.status, e.reason)`. -/
def delete_app (fGet fDelete : Fault) (st : ClusterState) (ns name : String) :
    Run DeleteResponse :=
  match get_knative_service fGet st name ns with
  | .error e => ⟨.error ⟨e.status, e.reason⟩, st, []⟩
  | .ok none =>
    ⟨.error ⟨404, "App " ++ name ++ " not found in namespace " ++ ns⟩, st, []⟩
  | .ok (some _) =>
    match k8s_delete_service fDelete st ns name with
    | .ok st1 => ⟨.ok ⟨name, ns, "deleted"⟩, st1, []⟩
    | .error e => ⟨.error ⟨e.status, e.reason⟩, st, []⟩

/-- One status condition of a listed Knative Service item. -/
structure Condition where
  type : String
  status : String
  deriving Repr, DecidableEq

/-- One item of the control-plane list reply consumed by `list_apps`
(main.py lines 869-885): metadata name and namespace, the first container
image, and the status conditions the platform attached. -/
structure ServiceItem where
  name : String
  «namespace» : String
  image : String
  conditions : List Condition
  deriving Repr, DecidableEq

/-- One entry of the `apps` array built by `list_apps` (main.py
lines 880-886). -/
structure AppSummary where
  name : String
  «namespace» : String
  url : String
  ready : Bool
  image : String
  deriving Repr, DecidableEq

/-- The `{"apps": …, "count": …}` reply of `list_apps` (main.py line 888). -/
structure AppsResponse where
  apps : List AppSummary
  count : Nat
  deriving Repr, DecidableEq

/-- Mirrors `list_apps(namespace)` (main.py lines 857-891) applied to the
items the control-plane list call returned: skip the infrastructure services
`kserve-api` and `scheduler-api`, mark an item ready when some condition has
type `Ready` and status `True`, and report the filtered list with its
length as `count`. -/
def list_apps (cfg : Config) (items : List ServiceItem) : AppsResponse :=
  let apps := items.filterMap (fun item =>
    if item.name == "kserve-api" || item.name == "scheduler-api" then none
    else
      let ready := item.conditions.any (fun c => c.type == "Ready" && c.status == "True")
      some { name := item.name
             «namespace» := item.namespace
             url := "https://" ++ item.name ++ "." ++ cfg.domain
             ready := ready
             image := item.image })
  ⟨apps, apps.length⟩

/-- One pod as seen by `get_logs`: its name, labels, creation timestamp
(modelled as a totally ordered natural number) and status phase. -/
structure PodInfo where
  name : String
  labels : List (String × String)
  creation_timestamp : Nat
  phase : String
  deriving Repr, DecidableEq

/-- The label selector `serving.knative.dev/service={name}` applied by the
control plane to `list_namespaced_pod` (main.py lines 963-968). -/
def list_pods_for_service (allPods : List PodInfo) (name : String) :
    List PodInfo :=
  allPods.filter (fun p =>
    p.labels.any (fun l => l.1 == "serving.knative.dev/service" && l.2 == name))

/-- Python's `max(pods.items, key=lambda p: p.metadata.creation_timestamp)`
on a non-empty list: scan left to right, replacing the current maximum only
on a strictly greater timestamp (so the first maximal pod wins ties). -/
def latest_pod_of (p : PodInfo) (ps : List PodInfo) : PodInfo :=
  ps.foldl (fun acc q => if acc.creation_timestamp < q.creation_timestamp then q else acc) p

/-- The JSON body returned by `get_logs` on success (main.py lines 970-1014):
the three return dicts share these keys, absent keys modelled as `none`. -/
structure LogsResponse where
  name : String
  «namespace» : String
  pod_name : Option String
  pod_status : Option String
  tail_lines : Option Nat
  logs : String
  message : Option String
  deriving Repr, DecidableEq

/-- Mirrors `get_logs(name, namespace, tail_lines)` (main.py lines 949-1020):
check the Knative Service exists (404 otherwise), list the pods labelled for
the service, answer an explanatory message when none exist, pick the pod
with the latest creation timestamp, and read its log tail.  When the pod is
not Running/Succeeded the read is attempted anyway and an `ApiException`
there is answered as an explanatory message; in the Running/Succeeded branch
an `ApiException` from the read escapes to the endpoint handler and becomes
`HTTPException(e.status, e.reason)`.  `readLog` is the behavior of
`read_namespaced_pod_log` for each pod name. -/
def get_logs (fGet : Fault) (st : ClusterState) (allPods : List PodInfo)
    (readLog : String → Except ApiErr String) (name ns : String)
    (tail_lines : Nat) : Except HTTPErr LogsResponse :=
  match get_knative_service fGet st name ns with
  | .error e => .error ⟨e.status, e.reason⟩
  | .ok none =>
    .error ⟨404, "App " ++ name ++ " not found in namespace " ++ ns⟩
  | .ok (some _) =>
    match list_pods_for_service allPods name with
    | [] =>
      .ok { name := name, «namespace» := ns, pod_name := none,
            pod_status := none, tail_lines := none, logs := "",
            message := some "No pods found for this app. The app may not be running yet or scaled to zero." }
    | p :: ps =>
      let latest_pod := latest_pod_of p ps
      let pod_name := latest_pod.name
      if latest_pod.phase == "Running" || latest_pod.phase == "Succeeded" then
        match readLog pod_name with
        | .ok logs =>
          .ok { name := name, «namespace» := ns, pod_name := some pod_name,
                pod_status := some latest_pod.phase,
                tail_lines := some tail_lines, logs := logs, message := none }
        | .error e => .error ⟨e.status, e.reason⟩
      else
        match readLog pod_name with
        | .ok logs =>
          .ok { name := name, «namespace» := ns, pod_name := some pod_name,
                pod_status := some latest_pod.phase,
                tail_lines := some tail_lines, logs := logs, message := none }
        | .error _ =>
          .ok { name := name, «namespace» := ns, pod_name := some pod_name,
                pod_status := some latest_pod.phase, tail_lines := none,
                logs := "",
                message := some ("Pod is in " ++ latest_pod.phase ++ " state and logs are not available yet.") }

/-- What one polling attempt of the autoscaler corrector observes: the
derived child resource (revision autoscaler policy) by name, nothing yet,
or a control-plane error. -/
inductive PollResult where
  | found : String → PollResult
  | notFoundYet : PollResult
  | apiError : Nat → String → PollResult
  deriving Repr, DecidableEq

/-- Terminal outcome of the autoscaler corrector: the child resource was
patched (child name, value written to the scale-floor entry, zero-based index
of the succeeding attempt), or the attempt ceiling was exhausted with a
logged warning.  There is no error alternative: the corrector never raises. -/
inductive CorrectionOutcome where
  | patched : String → String → Nat → CorrectionOutcome
  | exhausted : CorrectionOutcome
  deriving Repr, DecidableEq

/-- Modelled from the spec: the repository variant under src/ lacks the
AutoscalerCorrector (spec §2, §4.3); this is its bounded polling loop,
faithful to the spec words: `attempt` is the index of the next poll,
`remaining` the attempts left of the ceiling; a found child is patched to
zero and stops the loop; a not-yet-found child or a per-attempt error is
logged (spec: non-404 errors do not abort the loop) and polling continues
about one second later; running out of attempts gives up. -/
def autoscaler_poll_loop (poll : Nat → PollResult) :
    Nat → Nat → CorrectionOutcome
  | _, 0 => .exhausted
  | attempt, remaining + 1 =>
    match poll attempt with
    | .found child => .patched child "0" attempt
    | .notFoundYet => autoscaler_poll_loop poll (attempt + 1) remaining
    | .apiError _ _ => autoscaler_poll_loop poll (attempt + 1) remaining

/-- Modelled from the spec: the fixed attempt ceiling of the autoscaler
corrector (spec §4.3: 30 attempts, about 1 second apart). -/
def AUTOSCALER_MAX_ATTEMPTS : Nat := 30

/-- Modelled from the spec: the whole autoscaler correction pass over an
attempt-indexed observation of the control plane. -/
def autoscaler_correct (poll : Nat → PollResult) : CorrectionOutcome :=
  autoscaler_poll_loop poll 0 AUTOSCALER_MAX_ATTEMPTS

/-- The hostname a domain-mapping reconciliation event is about. -/
def Event.dmHost : Event → Option String
  | .dmCreated d _ _ => some d
  | .dmExists d => some d
  | .dmFailed d _ _ => some d
  | _ => none

/-- The hostname a cache-purge event is about. -/
def Event.purgeHost : Event → Option String
  | .purgedOk d => some d
  | .purgeFailedStatus d _ _ => some d
  | .purgeError d _ => some d
  | _ => none

/-! Concrete fixtures used by witness and counterexample theorems. -/

/-- The default configuration of main.py lines 36-37. -/
def exampleConfig : Config := ⟨"default", "calvinruntime.net"⟩

/-- A deploy environment with no fault and all HTTP calls succeeding. -/
def honestDeployEnv : DeployEnv :=
  ⟨none, none, none, none, none, .status 200 "", .status 200 "", .status 200⟩

/-- The end-to-end example request of the spec (§8). -/
def exampleRequest : DeploymentRequest :=
  ⟨"demo", "registry.example/demo:v1", [⟨"FOO", "bar"⟩], "default", none⟩

/-- The same request with the custom domain of the spec scenario (§8). -/
def exampleCustomRequest : DeploymentRequest :=
  ⟨"demo", "registry.example/demo:v1", [⟨"FOO", "bar"⟩], "default",
    some "shop.example.com"⟩

/-- A cluster with no resource at all. -/
def emptyCluster : ClusterState := ⟨[], []⟩

/-- A cluster holding the `demo` service and a DomainMapping for its own
subdomain `demo.calvinruntime.net`. -/
def clusterWithDemoAndSubdomainDM : ClusterState :=
  (emptyCluster.putService "default" "demo"
    (create_knative_service_spec exampleConfig "demo" "registry.example/demo:v1" [])).putDM
    "default" "demo.calvinruntime.net"
    (create_domain_mapping_spec "demo.calvinruntime.net" "demo" "default")

/-! Helper lemmas about the cluster-state association lists. -/

theorem lookupService_putService_self (st : ClusterState) (ns name : String)
    (doc : KnativeServiceDoc) :
    (st.putService ns name doc).lookupService ns name = some doc := by
  simp [ClusterState.putService, ClusterState.lookupService, List.find?]

theorem lookupService_removeService_self (st : ClusterState) (ns name : String) :
    (st.removeService ns name).lookupService ns name = none := by
  simp only [ClusterState.removeService, ClusterState.lookupService]
  rw [List.find?_eq_none.mpr, Option.map_none']
  intro x hx
  have hkeep := List.of_mem_filter hx
  simp only [Bool.not_eq_true'] at hkeep
  simp [hkeep]

theorem lookupService_putDM (st : ClusterState) (ns domain_name : String)
    (doc : DomainMappingDoc) (ns' name' : String) :
    (st.putDM ns domain_name doc).lookupService ns' name'
      = st.lookupService ns' name' := rfl

theorem lookupDM_putService (st : ClusterState) (ns name : String)
    (doc : KnativeServiceDoc) (ns' domain' : String) :
    (st.putService ns name doc).lookupDM ns' domain'
      = st.lookupDM ns' domain' := rfl

theorem lookupDM_putDM_self (st : ClusterState) (ns domain_name : String)
    (doc : DomainMappingDoc) :
    (st.putDM ns domain_name doc).lookupDM ns domain_name = some doc := by
  simp [ClusterState.putDM, ClusterState.lookupDM, List.find?]

theorem k8s_create_dm_services_eq (f : Fault) (st : ClusterState) (ns : String)
    (body : DomainMappingDoc) (st1 : ClusterState)
    (h : k8s_create_dm f st ns body = .ok st1) : st1.services = st.services := by
  unfold k8s_create_dm at h
  split at h
  · exact absurd h (by simp)
  · split at h
    · exact absurd h (by simp)
    · simp only [Except.ok.injEq] at h
      subst h
      rfl

theorem create_or_update_domain_mapping_services (fGet fCreate : Fault)
    (st : ClusterState) (domain_name service_name ns : String) :
    ((create_or_update_domain_mapping fGet fCreate st domain_name service_name ns).1).services
      = st.services := by
  unfold create_or_update_domain_mapping
  split
  · rfl
  · split
    · dsimp only
      split
      · next st1 heq => exact k8s_create_dm_services_eq _ _ _ _ _ heq
      · rfl
    · rfl

theorem create_or_update_domain_mapping_lookupService (fGet fCreate : Fault)
    (st : ClusterState) (domain_name service_name ns ns' name' : String) :
    ((create_or_update_domain_mapping fGet fCreate st domain_name service_name ns).1).lookupService ns' name'
      = st.lookupService ns' name' := by
  simp [ClusterState.lookupService,
    create_or_update_domain_mapping_services fGet fCreate st domain_name service_name ns]

/-- C3: `buildWorkloadSpec` (here `create_knative_service_spec`) is a pure
Lean function, so determinism on equal inputs is definitional; the theorem
states the rest of the claim: the environment of the desired document is the
user entries in insertion order followed by exactly one injected
`SERVICE_URL` entry, whose value is `https://` ++ name ++ `.` ++ domain, and
the last entry is that injected entry whatever the user environment or the
image is. -/
theorem C3_buildWorkloadSpec_env (cfg : Config) (name image : String)
    (envs : List EnvEntry) :
    (create_knative_service_spec cfg name image envs).env
        = envs ++ [⟨"SERVICE_URL", "https://" ++ name ++ "." ++ cfg.domain⟩] ∧
    (create_knative_service_spec cfg name image envs).env.dropLast = envs ∧
    (∀ (envs2 : List EnvEntry) (image2 : String),
      (create_knative_service_spec cfg name image2 envs2).env.getLast?
        = some ⟨"SERVICE_URL", "https://" ++ name ++ "." ++ cfg.domain⟩) := by
  have hmap : ∀ l : List EnvEntry,
      l.map (fun e => EnvEntry.mk e.name e.value) = l := by
    intro l
    have : (fun e : EnvEntry => EnvEntry.mk e.name e.value) = id := funext fun e => rfl
    rw [this, List.map_id]
  refine ⟨?_, ?_, ?_⟩
  · simp [create_knative_service_spec, hmap]
  · simp [create_knative_service_spec, hmap, List.dropLast_concat]
  · intro envs2 image2
    simp [create_knative_service_spec, hmap, List.getLast?_concat]

/-- C10: the list endpoint never returns a workload named `kserve-api` or
`scheduler-api`, and the reported `count` is the length of the filtered
`apps` list. -/
theorem C10_list_apps_reserved_names (cfg : Config) (items : List ServiceItem) :
    (list_apps cfg items).count = (list_apps cfg items).apps.length ∧
    ∀ a ∈ (list_apps cfg items).apps,
      a.name ≠ "kserve-api" ∧ a.name ≠ "scheduler-api" := by
  constructor
  · rfl
  · intro a ha
    simp only [list_apps, List.mem_filterMap] at ha
    obtain ⟨item, -, hf⟩ := ha
    by_cases h : (item.name == "kserve-api" || item.name == "scheduler-api") = true
    · rw [if_pos h] at hf
      exact absurd hf (by simp)
    · rw [if_neg h] at hf
      simp only [Option.some.injEq] at hf
      subst hf
      simpa using h

/-- Witness for C10: with one infrastructure item and one user item, the
single returned app is the user one and its name is neither reserved name. -/
theorem C10_list_apps_reserved_names_witness :
    (AppSummary.mk "demo" "default" "https://demo.calvinruntime.net" false "img").name ≠ "kserve-api" ∧
    (AppSummary.mk "demo" "default" "https://demo.calvinruntime.net" false "img").name ≠ "scheduler-api" :=
  (C10_list_apps_reserved_names ⟨"default", "calvinruntime.net"⟩
      [⟨"kserve-api", "default", "i1", []⟩, ⟨"demo", "default", "img", []⟩]).2
    ⟨"demo", "default", "https://demo.calvinruntime.net", false, "img"⟩
    (by decide)

theorem create_knative_service_spec_metadataName (cfg : Config)
    (name image : String) (envs : List EnvEntry) :
    (create_knative_service_spec cfg name image envs).metadataName = name := rfl

theorem get_knative_service_none_fault (st : ClusterState) (name ns : String) :
    get_knative_service none st name ns = .ok (st.lookupService ns name) := by
  unfold get_knative_service k8s_get_service
  cases h : st.lookupService ns name <;> simp [h]

/-- With no fault injected on the primary get/create/patch calls, `deploy_app`
always answers success: `created` when the service was absent, `updated` when
it was present, with the primary URL, and afterwards the cluster stores the
freshly built desired document — whatever the DomainMapping faults, CDN
responses and warm-up behavior are. -/
theorem deploy_app_fault_free (cfg : Config) (env : DeployEnv)
    (st : ClusterState) (request : DeploymentRequest)
    (hg : env.getService = none) (hc : env.createService = none)
    (hp : env.patchService = none) :
    (deploy_app cfg env st request).result =
      .ok ⟨request.name, request.namespace,
        (match st.lookupService request.namespace request.name with
         | none => "created"
         | some _ => "updated"),
        "success",
        some ("https://" ++ request.name ++ "." ++ cfg.domain)⟩ ∧
    (deploy_app cfg env st request).state.lookupService
        request.namespace request.name
      = some (create_knative_service_spec cfg request.name request.image request.envs) := by
  unfold deploy_app
  dsimp only
  rw [hg, get_knative_service_none_fault]
  cases h : st.lookupService request.namespace request.name with
  | none =>
    simp only [h, k8s_create_service, hc, create_knative_service_spec_metadataName]
    cases hcd : request.custom_domain with
    | none =>
      simp only [h]
      exact ⟨rfl, lookupService_putService_self st request.namespace request.name _⟩
    | some custom =>
      simp only [h]
      refine ⟨rfl, ?_⟩
      rw [create_or_update_domain_mapping_lookupService]
      exact lookupService_putService_self st request.namespace request.name _
  | some doc =>
    simp only [h, k8s_patch_service, hp]
    cases hcd : request.custom_domain with
    | none =>
      exact ⟨rfl, lookupService_putService_self st request.namespace request.name _⟩
    | some custom =>
      refine ⟨rfl, ?_⟩
      rw [create_or_update_domain_mapping_lookupService]
      exact lookupService_putService_self st request.namespace request.name _

/-- C1: the cache-purge call can only log — a non-2xx response is logged as a
warning event and a transport error as an error event, its return type has no
failure channel — and whatever the CDN (and warm-up) behavior in `env` is,
a deploy whose primary get/create/patch calls are healthy answers
`status = success` with a valid action and the primary URL. -/
theorem C1_purge_failure_isolated (cfg : Config) (env : DeployEnv)
    (st : ClusterState) (request : DeploymentRequest)
    (hg : env.getService = none) (hc : env.createService = none)
    (hp : env.patchService = none) :
    (∃ r, (deploy_app cfg env st request).result = .ok r ∧
       r.status = "success" ∧
       (r.action = "created" ∨ r.action = "updated") ∧
       r.url = some ("https://" ++ request.name ++ "." ++ cfg.domain)) ∧
    (∀ (d text : String) (code : Nat), code < 200 ∨ 300 ≤ code →
       purge_cloudflare_cache d (.status code text)
         = .purgeFailedStatus d code text) ∧
    (∀ d msg, purge_cloudflare_cache d (.transportError msg)
       = .purgeError d msg) := by
  refine ⟨?_, ?_, ?_⟩
  · have hres := (deploy_app_fault_free cfg env st request hg hc hp).1
    refine ⟨_, hres, rfl, ?_, rfl⟩
    cases st.lookupService request.namespace request.name with
    | none => exact Or.inl rfl
    | some _ => exact Or.inr rfl
  · intro d text code hcode
    have : (code == 200) = false := by
      simp only [beq_eq_false_iff_ne, ne_eq]
      omega
    simp [purge_cloudflare_cache, this]
  · intro d msg
    rfl

/-- Witness for C1 at a concrete deployment with a CDN that answers 503 and
a warm-up that times out. -/
theorem C1_purge_failure_isolated_witness :
    (∃ r, (deploy_app ⟨"default", "calvinruntime.net"⟩
        ⟨none, none, none, none, none, .status 200 "", .status 503 "cdn down", .timeout⟩
        ⟨[], []⟩ ⟨"demo", "img", [], "default", none⟩).result = .ok r ∧
       r.status = "success" ∧
       (r.action = "created" ∨ r.action = "updated") ∧
       r.url = some ("https://" ++ "demo" ++ "." ++ "calvinruntime.net")) ∧
    (∀ (d text : String) (code : Nat), code < 200 ∨ 300 ≤ code →
       purge_cloudflare_cache d (.status code text)
         = .purgeFailedStatus d code text) ∧
    (∀ d msg, purge_cloudflare_cache d (.transportError msg)
       = .purgeError d msg) :=
  C1_purge_failure_isolated ⟨"default", "calvinruntime.net"⟩
    ⟨none, none, none, none, none, .status 200 "", .status 503 "cdn down", .timeout⟩
    ⟨[], []⟩ ⟨"demo", "img", [], "default", none⟩ rfl rfl rfl

/-- C5: a control-plane error injected on the primary create (service absent)
or on the primary patch (service present) aborts the whole request — the
state is unchanged and no side effect happened — and surfaces as an HTTP
error whose status code and reason are the control plane's own. -/
theorem C5_control_plane_error_surfaced (cfg : Config) (env : DeployEnv)
    (st : ClusterState) (request : DeploymentRequest) (e : ApiErr)
    (hg : env.getService = none) :
    (env.createService = some e →
      st.lookupService request.namespace request.name = none →
      (deploy_app cfg env st request).result = .error ⟨e.status, e.reason⟩ ∧
      (deploy_app cfg env st request).state = st ∧
      (deploy_app cfg env st request).events = []) ∧
    (∀ doc, env.patchService = some e →
      st.lookupService request.namespace request.name = some doc →
      (deploy_app cfg env st request).result = .error ⟨e.status, e.reason⟩ ∧
      (deploy_app cfg env st request).state = st ∧
      (deploy_app cfg env st request).events = []) := by
  constructor
  · intro hc h
    unfold deploy_app
    dsimp only
    rw [hg, get_knative_service_none_fault, h]
    simp only [k8s_create_service, hc, create_knative_service_spec_metadataName]
    exact ⟨by trivial, by trivial, by trivial⟩
  · intro doc hp h
    unfold deploy_app
    dsimp only
    rw [hg, get_knative_service_none_fault, h]
    simp only [k8s_patch_service, hp]
    exact ⟨by trivial, by trivial, by trivial⟩

/-- Witness for C5: a 500 from the create call surfaces as HTTP 500 with the
reason preserved and nothing else happens. -/
theorem C5_control_plane_error_surfaced_witness :
    (deploy_app ⟨"default", "calvinruntime.net"⟩
        ⟨none, some ⟨500, "Internal Server Error"⟩, none, none, none,
          .status 200 "", .status 200 "", .status 200⟩
        ⟨[], []⟩ ⟨"demo", "img", [], "default", none⟩).result
      = .error ⟨500, "Internal Server Error"⟩ ∧
    (deploy_app ⟨"default", "calvinruntime.net"⟩
        ⟨none, some ⟨500, "Internal Server Error"⟩, none, none, none,
          .status 200 "", .status 200 "", .status 200⟩
        ⟨[], []⟩ ⟨"demo", "img", [], "default", none⟩).state = ⟨[], []⟩ ∧
    (deploy_app ⟨"default", "calvinruntime.net"⟩
        ⟨none, some ⟨500, "Internal Server Error"⟩, none, none, none,
          .status 200 "", .status 200 "", .status 200⟩
        ⟨[], []⟩ ⟨"demo", "img", [], "default", none⟩).events = [] :=
  (C5_control_plane_error_surfaced ⟨"default", "calvinruntime.net"⟩
    ⟨none, some ⟨500, "Internal Server Error"⟩, none, none, none,
      .status 200 "", .status 200 "", .status 200⟩
    ⟨[], []⟩ ⟨"demo", "img", [], "default", none⟩
    ⟨500, "Internal Server Error"⟩ rfl).1 rfl rfl

/-- C2: with a healthy primary control plane, an absent name is created
(action `created`) and the full desired document is stored; a present name
is replaced by the full desired document (action `updated`); deploying the
same unchanged request a second time yields action `updated`, the stored
desired document equal to the first deployment's, and the same primary
URL. -/
theorem C2_upsert_idempotent (cfg : Config) (env env2 : DeployEnv)
    (st : ClusterState) (request : DeploymentRequest)
    (hg : env.getService = none) (hc : env.createService = none)
    (hp : env.patchService = none)
    (hg2 : env2.getService = none) (hc2 : env2.createService = none)
    (hp2 : env2.patchService = none) :
    (st.lookupService request.namespace request.name = none →
      (∃ r1, (deploy_app cfg env st request).result = .ok r1 ∧
         r1.action = "created" ∧
         r1.url = some ("https://" ++ request.name ++ "." ++ cfg.domain)) ∧
      (deploy_app cfg env st request).state.lookupService
          request.namespace request.name
        = some (create_knative_service_spec cfg request.name request.image request.envs) ∧
      (∃ r2, (deploy_app cfg env2 (deploy_app cfg env st request).state request).result
           = .ok r2 ∧
         r2.action = "updated" ∧
         r2.url = some ("https://" ++ request.name ++ "." ++ cfg.domain)) ∧
      (deploy_app cfg env2 (deploy_app cfg env st request).state request).state.lookupService
          request.namespace request.name
        = some (create_knative_service_spec cfg request.name request.image request.envs)) ∧
    (∀ doc, st.lookupService request.namespace request.name = some doc →
      (∃ r, (deploy_app cfg env st request).result = .ok r ∧
         r.action = "updated" ∧
         r.url = some ("https://" ++ request.name ++ "." ++ cfg.domain)) ∧
      (deploy_app cfg env st request).state.lookupService
          request.namespace request.name
        = some (create_knative_service_spec cfg request.name request.image request.envs)) := by
  constructor
  · intro habs
    have h1 := deploy_app_fault_free cfg env st request hg hc hp
    rw [habs] at h1
    have h2 := deploy_app_fault_free cfg env2 (deploy_app cfg env st request).state
      request hg2 hc2 hp2
    rw [h1.2] at h2
    exact ⟨⟨_, h1.1, rfl, rfl⟩, h1.2, ⟨_, h2.1, rfl, rfl⟩, h2.2⟩
  · intro doc hpres
    have h1 := deploy_app_fault_free cfg env st request hg hc hp
    rw [hpres] at h1
    exact ⟨⟨_, h1.1, rfl, rfl⟩, h1.2⟩

/-- Witness for C2: deploying the example request twice onto an empty
cluster gives `updated` the second time, with the same URL and the same
stored desired document. -/
theorem C2_upsert_idempotent_witness :
    (∃ r1, (deploy_app exampleConfig honestDeployEnv emptyCluster exampleRequest).result
         = .ok r1 ∧
       r1.action = "created" ∧
       r1.url = some ("https://" ++ "demo" ++ "." ++ "calvinruntime.net")) ∧
    (deploy_app exampleConfig honestDeployEnv emptyCluster exampleRequest).state.lookupService
        "default" "demo"
      = some (create_knative_service_spec exampleConfig "demo"
          "registry.example/demo:v1" [⟨"FOO", "bar"⟩]) ∧
    (∃ r2, (deploy_app exampleConfig honestDeployEnv
          (deploy_app exampleConfig honestDeployEnv emptyCluster exampleRequest).state
          exampleRequest).result = .ok r2 ∧
       r2.action = "updated" ∧
       r2.url = some ("https://" ++ "demo" ++ "." ++ "calvinruntime.net")) ∧
    (deploy_app exampleConfig honestDeployEnv
        (deploy_app exampleConfig honestDeployEnv emptyCluster exampleRequest).state
        exampleRequest).state.lookupService "default" "demo"
      = some (create_knative_service_spec exampleConfig "demo"
          "registry.example/demo:v1" [⟨"FOO", "bar"⟩]) :=
  (C2_upsert_idempotent exampleConfig honestDeployEnv honestDeployEnv
      emptyCluster exampleRequest rfl rfl rfl rfl rfl rfl).1 rfl

/-- C6: deletion is existence-gated — deleting an absent name answers 404
and leaves the cluster untouched (the delete call is never attempted), and
after a successful deletion the name is absent, so a second deletion in a
row answers 404. -/
theorem C6_delete_existence_gated (st : ClusterState) (ns name : String) :
    (st.lookupService ns name = none →
      (delete_app none none st ns name).result
        = .error ⟨404, "App " ++ name ++ " not found in namespace " ++ ns⟩ ∧
      (delete_app none none st ns name).state = st) ∧
    (∀ doc, st.lookupService ns name = some doc →
      (delete_app none none st ns name).result = .ok ⟨name, ns, "deleted"⟩ ∧
      (delete_app none none st ns name).state.lookupService ns name = none ∧
      (delete_app none none (delete_app none none st ns name).state ns name).result
        = .error ⟨404, "App " ++ name ++ " not found in namespace " ++ ns⟩) := by
  have absent : ∀ (st' : ClusterState), st'.lookupService ns name = none →
      delete_app none none st' ns name
        = ⟨.error ⟨404, "App " ++ name ++ " not found in namespace " ++ ns⟩, st', []⟩ := by
    intro st' h
    unfold delete_app
    rw [get_knative_service_none_fault, h]
  have present : ∀ (st' : ClusterState) (doc : KnativeServiceDoc),
      st'.lookupService ns name = some doc →
      delete_app none none st' ns name
        = ⟨.ok ⟨name, ns, "deleted"⟩, st'.removeService ns name, []⟩ := by
    intro st' doc h
    unfold delete_app
    rw [get_knative_service_none_fault, h]
    simp only [k8s_delete_service, h]
  constructor
  · intro habs
    rw [absent st habs]
    exact ⟨rfl, rfl⟩
  · intro doc hpres
    rw [present st doc hpres]
    refine ⟨rfl, lookupService_removeService_self st ns name, ?_⟩
    rw [absent (st.removeService ns name) (lookupService_removeService_self st ns name)]

/-- Witness for C6: on a cluster holding only `demo`, deleting `demo`
succeeds and a second deletion answers 404; deleting a never-created name
answers 404. -/
theorem C6_delete_existence_gated_witness :
    ((delete_app none none
        (emptyCluster.putService "default" "demo"
          (create_knative_service_spec exampleConfig "demo" "img" []))
        "default" "demo").result = .ok ⟨"demo", "default", "deleted"⟩ ∧
     (delete_app none none
        (emptyCluster.putService "default" "demo"
          (create_knative_service_spec exampleConfig "demo" "img" []))
        "default" "demo").state.lookupService "default" "demo" = none ∧
     (delete_app none none
        (delete_app none none
          (emptyCluster.putService "default" "demo"
            (create_knative_service_spec exampleConfig "demo" "img" []))
          "default" "demo").state "default" "demo").result
       = .error ⟨404, "App " ++ "demo" ++ " not found in namespace " ++ "default"⟩) ∧
    (delete_app none none emptyCluster "default" "never-created").result
      = .error ⟨404, "App " ++ "never-created" ++ " not found in namespace " ++ "default"⟩ :=
  ⟨(C6_delete_existence_gated
      (emptyCluster.putService "default" "demo"
        (create_knative_service_spec exampleConfig "demo" "img" []))
      "default" "demo").2 _ (by rfl),
   ((C6_delete_existence_gated emptyCluster "default" "never-created").1 rfl).1⟩

theorem create_domain_mapping_spec_metadataName (d s ns : String) :
    (create_domain_mapping_spec d s ns).metadataName = d := rfl

theorem get_domain_mapping_none_fault (st : ClusterState) (d ns : String) :
    get_domain_mapping none st d ns = .ok (st.lookupDM ns d) := by
  unfold get_domain_mapping k8s_get_dm
  cases h : st.lookupDM ns d <;> simp [h]

theorem coudm_absent (st : ClusterState) (d s ns : String)
    (h : st.lookupDM ns d = none) :
    create_or_update_domain_mapping none none st d s ns
      = (st.putDM ns d (create_domain_mapping_spec d s ns), [.dmCreated d s ns]) := by
  unfold create_or_update_domain_mapping
  rw [get_domain_mapping_none_fault, h]
  dsimp only
  simp only [k8s_create_dm, create_domain_mapping_spec_metadataName, h]

theorem coudm_present (st : ClusterState) (d s ns : String)
    (doc : DomainMappingDoc) (h : st.lookupDM ns d = some doc) :
    create_or_update_domain_mapping none none st d s ns = (st, [.dmExists d]) := by
  unfold create_or_update_domain_mapping
  rw [get_domain_mapping_none_fault, h]

theorem coudm_events_dmHost (fGet fCreate : Fault) (st : ClusterState)
    (d s ns : String) :
    ((create_or_update_domain_mapping fGet fCreate st d s ns).2).filterMap Event.dmHost
      = [d] := by
  unfold create_or_update_domain_mapping
  split
  · rfl
  · split
    · dsimp only
      split
      · rfl
      · rfl
    · rfl

theorem coudm_events_purgeHost (fGet fCreate : Fault) (st : ClusterState)
    (d s ns : String) :
    ((create_or_update_domain_mapping fGet fCreate st d s ns).2).filterMap Event.purgeHost
      = [] := by
  unfold create_or_update_domain_mapping
  split
  · rfl
  · split
    · dsimp only
      split
      · rfl
      · rfl
    · rfl

theorem purge_dmHost (d : String) (resp : CdnBehavior) :
    Event.dmHost (purge_cloudflare_cache d resp) = none := by
  unfold purge_cloudflare_cache
  cases resp with
  | status code text =>
    dsimp only
    split <;> rfl
  | transportError msg => rfl

theorem purge_purgeHost (d : String) (resp : CdnBehavior) :
    Event.purgeHost (purge_cloudflare_cache d resp) = some d := by
  unfold purge_cloudflare_cache
  cases resp with
  | status code text =>
    dsimp only
    split <;> rfl
  | transportError msg => rfl

theorem warm_dmHost (u : String) (resp : HttpBehavior) :
    Event.dmHost (warm_up_service u resp) = none := by
  cases resp <;> rfl

theorem slept_dmHost (n : Nat) : Event.dmHost (.slept n) = none := rfl

theorem slept_purgeHost (n : Nat) : Event.purgeHost (.slept n) = none := rfl

theorem warm_purgeHost (u : String) (resp : HttpBehavior) :
    Event.purgeHost (warm_up_service u resp) = none := by
  cases resp <;> rfl

/-- Full reduction of `deploy_app` when the primary control plane is healthy
and the request carries a custom domain. -/
theorem deploy_app_fault_free_custom (cfg : Config) (env : DeployEnv)
    (st : ClusterState) (request : DeploymentRequest) (custom : String)
    (hg : env.getService = none) (hc : env.createService = none)
    (hp : env.patchService = none)
    (hcd : request.custom_domain = some custom) :
    deploy_app cfg env st request =
      ⟨.ok ⟨request.name, request.namespace,
          (match st.lookupService request.namespace request.name with
           | none => "created"
           | some _ => "updated"),
          "success",
          some ("https://" ++ (request.name ++ "." ++ cfg.domain))⟩,
        (create_or_update_domain_mapping env.getDM env.createDM
          (st.putService request.namespace request.name
            (create_knative_service_spec cfg request.name request.image request.envs))
          custom request.name request.namespace).1,
        (create_or_update_domain_mapping env.getDM env.createDM
          (st.putService request.namespace request.name
            (create_knative_service_spec cfg request.name request.image request.envs))
          custom request.name request.namespace).2
          ++ [purge_cloudflare_cache custom env.cdnCustom]
          ++ [purge_cloudflare_cache (request.name ++ "." ++ cfg.domain) env.cdnSubdomain,
              .slept 3,
              warm_up_service ("https://" ++ (request.name ++ "." ++ cfg.domain)) env.warmup]⟩ := by
  unfold deploy_app
  dsimp only
  rw [hg, get_knative_service_none_fault]
  cases h : st.lookupService request.namespace request.name with
  | none =>
    simp only [h, k8s_create_service, hc, create_knative_service_spec_metadataName]
    rw [hcd]
  | some doc =>
    simp only [h, k8s_patch_service, hp]
    rw [hcd]

/-- Counterexample to C4 as stated: deploying the spec's custom-domain
request onto an empty cluster with a healthy control plane reconciles only
ONE DomainMapping (the custom domain), no DomainMapping for the deployment's
own subdomain `demo.calvinruntime.net` is ensured (it does not exist
afterwards), while two cache-purge calls are indeed issued. -/
theorem C4_counterexample_subdomain_not_mapped :
    ((deploy_app exampleConfig honestDeployEnv emptyCluster
        exampleCustomRequest).events.filterMap Event.dmHost)
      = ["shop.example.com"] ∧
    ((deploy_app exampleConfig honestDeployEnv emptyCluster
        exampleCustomRequest).events.filterMap Event.purgeHost)
      = ["shop.example.com", "demo.calvinruntime.net"] ∧
    (deploy_app exampleConfig honestDeployEnv emptyCluster
        exampleCustomRequest).state.lookupDM "default" "demo.calvinruntime.net"
      = none := by
  exact ⟨rfl, rfl, rfl⟩

/-- C4 amended: on every deployment whose primary upsert is healthy, only
the custom domain (when present) has a DomainMapping idempotently ensured —
looked up by hostname, created if absent, left untouched if present — the
deployment's own subdomain gets none; exactly one domain-mapping
reconciliation happens and two cache-purge calls are issued, one per
hostname (custom domain first, then subdomain). -/
theorem C4_amended_custom_domain_only_reconciled (cfg : Config)
    (env : DeployEnv) (st : ClusterState) (request : DeploymentRequest)
    (custom : String)
    (hg : env.getService = none) (hc : env.createService = none)
    (hp : env.patchService = none)
    (hcd : request.custom_domain = some custom) :
    ((deploy_app cfg env st request).events.filterMap Event.dmHost = [custom]) ∧
    ((deploy_app cfg env st request).events.filterMap Event.purgeHost
       = [custom, request.name ++ "." ++ cfg.domain]) ∧
    (env.getDM = none → env.createDM = none →
      (st.lookupDM request.namespace custom = none →
        (deploy_app cfg env st request).state.lookupDM request.namespace custom
          = some (create_domain_mapping_spec custom request.name request.namespace)) ∧
      (∀ d, st.lookupDM request.namespace custom = some d →
        (deploy_app cfg env st request).state.domainMappings
          = st.domainMappings)) := by
  rw [deploy_app_fault_free_custom cfg env st request custom hg hc hp hcd]
  refine ⟨?_, ?_, ?_⟩
  · simp [List.filterMap_append, List.filterMap_cons, coudm_events_dmHost,
      purge_dmHost, warm_dmHost, slept_dmHost]
  · simp [List.filterMap_append, List.filterMap_cons, coudm_events_purgeHost,
      purge_purgeHost, warm_purgeHost, slept_purgeHost]
  · intro hgdm hcdm
    rw [hgdm, hcdm]
    constructor
    · intro habs
      have habs' : (st.putService request.namespace request.name
          (create_knative_service_spec cfg request.name request.image request.envs)).lookupDM
            request.namespace custom = none := by
        rw [lookupDM_putService]
        exact habs
      rw [coudm_absent _ _ _ _ habs']
      exact lookupDM_putDM_self _ _ _ _
    · intro d hpres
      have hpres' : (st.putService request.namespace request.name
          (create_knative_service_spec cfg request.name request.image request.envs)).lookupDM
            request.namespace custom = some d := by
        rw [lookupDM_putService]
        exact hpres
      rw [coudm_present _ _ _ _ _ hpres']
      rfl

/-- Witness for the amended C4 at the spec's custom-domain scenario on an
empty cluster. -/
theorem C4_amended_custom_domain_only_reconciled_witness :
    ((deploy_app exampleConfig honestDeployEnv emptyCluster
        exampleCustomRequest).events.filterMap Event.dmHost
      = ["shop.example.com"]) ∧
    ((deploy_app exampleConfig honestDeployEnv emptyCluster
        exampleCustomRequest).events.filterMap Event.purgeHost
      = ["shop.example.com", "demo" ++ "." ++ "calvinruntime.net"]) ∧
    (emptyCluster.lookupDM "default" "shop.example.com" = none →
      (deploy_app exampleConfig honestDeployEnv emptyCluster
          exampleCustomRequest).state.lookupDM "default" "shop.example.com"
        = some (create_domain_mapping_spec "shop.example.com" "demo" "default")) := by
  have h := C4_amended_custom_domain_only_reconciled exampleConfig honestDeployEnv
    emptyCluster exampleCustomRequest "shop.example.com" rfl rfl rfl rfl
  exact ⟨h.1, h.2.1, fun habs => ((h.2.2 rfl rfl).1 habs)⟩

/-- Counterexample to C7 as stated: on a cluster where the `demo` service
AND its primary-subdomain DomainMapping both exist, `delete_app` succeeds
but the subdomain DomainMapping still exists afterwards and no
domain-mapping deletion was even attempted (empty event trace): the deletion
workflow does not delete the primary-subdomain DomainMapping. -/
theorem C7_counterexample_subdomain_dm_not_deleted :
    (delete_app none none clusterWithDemoAndSubdomainDM "default" "demo").result
      = .ok ⟨"demo", "default", "deleted"⟩ ∧
    (delete_app none none clusterWithDemoAndSubdomainDM "default" "demo").state.lookupDM
        "default" "demo.calvinruntime.net"
      = some (create_domain_mapping_spec "demo.calvinruntime.net" "demo" "default") ∧
    (delete_app none none clusterWithDemoAndSubdomainDM "default" "demo").events
      = [] := by
  exact ⟨rfl, rfl, rfl⟩

/-- C7 amended: after the existence check succeeds the WorkloadResource is
deleted, and NO DomainMapping — neither the primary-subdomain one nor any
custom-domain one — is touched by the deletion workflow (the DomainMapping
collection is unchanged). -/
theorem C7_amended_delete_touches_no_dm (st : ClusterState) (ns name : String)
    (doc : KnativeServiceDoc) (h : st.lookupService ns name = some doc) :
    (delete_app none none st ns name).result = .ok ⟨name, ns, "deleted"⟩ ∧
    (delete_app none none st ns name).state.lookupService ns name = none ∧
    (delete_app none none st ns name).state.domainMappings = st.domainMappings ∧
    (delete_app none none st ns name).events = [] := by
  have hrun : delete_app none none st ns name
      = ⟨.ok ⟨name, ns, "deleted"⟩, st.removeService ns name, []⟩ := by
    unfold delete_app
    rw [get_knative_service_none_fault, h]
    simp only [k8s_delete_service, h]
  rw [hrun]
  exact ⟨rfl, lookupService_removeService_self st ns name, rfl, rfl⟩

/-- Witness for the amended C7 on the cluster holding `demo` and its
subdomain DomainMapping. -/
theorem C7_amended_delete_touches_no_dm_witness :
    (delete_app none none clusterWithDemoAndSubdomainDM "default" "demo").result
      = .ok ⟨"demo", "default", "deleted"⟩ ∧
    (delete_app none none clusterWithDemoAndSubdomainDM "default" "demo").state.lookupService
        "default" "demo" = none ∧
    (delete_app none none clusterWithDemoAndSubdomainDM "default" "demo").state.domainMappings
      = clusterWithDemoAndSubdomainDM.domainMappings ∧
    (delete_app none none clusterWithDemoAndSubdomainDM "default" "demo").events
      = [] :=
  C7_amended_delete_touches_no_dm clusterWithDemoAndSubdomainDM "default" "demo"
    (create_knative_service_spec exampleConfig "demo" "registry.example/demo:v1" [])
    (by rfl)

theorem autoscaler_loop_patched_inv (poll : Nat → PollResult) :
    ∀ (n attempt : Nat) (child v : String) (i : Nat),
      autoscaler_poll_loop poll attempt n = .patched child v i →
      attempt ≤ i ∧ i < attempt + n ∧ v = "0" ∧ poll i = .found child ∧
      ∀ j, attempt ≤ j → j < i → ∀ r, poll j ≠ .found r := by
  intro n
  induction n with
  | zero =>
    intro attempt child v i h
    exact absurd h (by simp [autoscaler_poll_loop])
  | succ n ih =>
    intro attempt child v i h
    unfold autoscaler_poll_loop at h
    cases hp : poll attempt with
    | found c =>
      rw [hp] at h
      simp only [CorrectionOutcome.patched.injEq] at h
      obtain ⟨hc, hv, hi⟩ := h
      subst hc hv hi
      refine ⟨le_refl _, by omega, rfl, hp, ?_⟩
      intro j hj1 hj2
      omega
    | notFoundYet =>
      rw [hp] at h
      obtain ⟨h1, h2, h3, h4, h5⟩ := ih (attempt + 1) child v i h
      refine ⟨by omega, by omega, h3, h4, ?_⟩
      intro j hj1 hj2 r
      rcases Nat.eq_or_lt_of_le hj1 with heq | hlt
      · rw [← heq, hp]
        intro hcon
        cases hcon
      · exact h5 j (by omega) hj2 r
    | apiError s m =>
      rw [hp] at h
      obtain ⟨h1, h2, h3, h4, h5⟩ := ih (attempt + 1) child v i h
      refine ⟨by omega, by omega, h3, h4, ?_⟩
      intro j hj1 hj2 r
      rcases Nat.eq_or_lt_of_le hj1 with heq | hlt
      · rw [← heq, hp]
        intro hcon
        cases hcon
      · exact h5 j (by omega) hj2 r

theorem autoscaler_loop_exhausted_of (poll : Nat → PollResult) :
    ∀ (n attempt : Nat),
      (∀ i, attempt ≤ i → i < attempt + n → ∀ r, poll i ≠ .found r) →
      autoscaler_poll_loop poll attempt n = .exhausted := by
  intro n
  induction n with
  | zero =>
    intro attempt h
    rfl
  | succ n ih =>
    intro attempt h
    unfold autoscaler_poll_loop
    cases hp : poll attempt with
    | found c => exact absurd hp (h attempt (le_refl _) (by omega) c)
    | notFoundYet => exact ih (attempt + 1) (fun i h1 h2 r => h i (by omega) (by omega) r)
    | apiError s m => exact ih (attempt + 1) (fun i h1 h2 r => h i (by omega) (by omega) r)

theorem autoscaler_loop_finds (poll : Nat → PollResult) :
    ∀ (n attempt i : Nat) (child : String),
      attempt ≤ i → i < attempt + n →
      (∀ j, attempt ≤ j → j < i → ∀ r, poll j ≠ .found r) →
      poll i = .found child →
      autoscaler_poll_loop poll attempt n = .patched child "0" i := by
  intro n
  induction n with
  | zero =>
    intro attempt i child h1 h2
    omega
  | succ n ih =>
    intro attempt i child h1 h2 hnone hfound
    unfold autoscaler_poll_loop
    rcases Nat.eq_or_lt_of_le h1 with heq | hlt
    · rw [← heq] at hfound
      rw [hfound, heq]
    · cases hp : poll attempt with
      | found c => exact absurd hp (hnone attempt (le_refl _) hlt c)
      | notFoundYet =>
        exact ih (attempt + 1) i child (by omega) (by omega)
          (fun j hj1 hj2 r => hnone j (by omega) hj2 r) hfound
      | apiError s m =>
        exact ih (attempt + 1) i child (by omega) (by omega)
          (fun j hj1 hj2 r => hnone j (by omega) hj2 r) hfound

/-- C8: the autoscaler corrector (spec-modelled, absent from src/) polls up
to the fixed ceiling of 30 attempts, one poll per ~1s step: if it reports a
patch, the patch happened within the first 30 attempts, at the first attempt
where the derived child resource appeared, and wrote the scale-floor value
`0`; if the child appears at some attempt below the ceiling it is patched
and the loop stops there; if the child never appears within 30 attempts the
corrector returns `exhausted` — its return type has no error channel, so no
exception can surface to the caller. -/
theorem C8_autoscaler_bounded_never_raises (poll : Nat → PollResult) :
    (∀ child v i, autoscaler_correct poll = .patched child v i →
      i < 30 ∧ v = "0" ∧ poll i = .found child ∧
      ∀ j, j < i → ∀ r, poll j ≠ .found r) ∧
    (∀ i, i < 30 → (∀ j, j < i → ∀ r, poll j ≠ .found r) →
      ∀ child, poll i = .found child →
      autoscaler_correct poll = .patched child "0" i) ∧
    ((∀ i, i < 30 → ∀ r, poll i ≠ .found r) →
      autoscaler_correct poll = .exhausted) := by
  refine ⟨?_, ?_, ?_⟩
  · intro child v i h
    obtain ⟨h1, h2, h3, h4, h5⟩ :=
      autoscaler_loop_patched_inv poll AUTOSCALER_MAX_ATTEMPTS 0 child v i h
    exact ⟨by simpa [AUTOSCALER_MAX_ATTEMPTS] using h2, h3, h4,
      fun j hj r => h5 j (Nat.zero_le j) hj r⟩
  · intro i hi hnone child hfound
    exact autoscaler_loop_finds poll AUTOSCALER_MAX_ATTEMPTS 0 i child
      (Nat.zero_le i) (by simpa [AUTOSCALER_MAX_ATTEMPTS] using hi)
      (fun j _ hj r => hnone j hj r) hfound
  · intro h
    exact autoscaler_loop_exhausted_of poll AUTOSCALER_MAX_ATTEMPTS 0
      (fun i _ hi r => h i (by simpa [AUTOSCALER_MAX_ATTEMPTS] using hi) r)

/-- Witness for C8: when the child resource never appears the corrector
gives up with `exhausted`, and when it appears at attempt 5 it is patched
to zero at attempt 5. -/
theorem C8_autoscaler_bounded_never_raises_witness :
    autoscaler_correct (fun _ => PollResult.notFoundYet)
      = CorrectionOutcome.exhausted ∧
    autoscaler_correct (fun i => if i == 5 then PollResult.found "demo-00001" else PollResult.notFoundYet)
      = CorrectionOutcome.patched "demo-00001" "0" 5 :=
  ⟨(C8_autoscaler_bounded_never_raises (fun _ => PollResult.notFoundYet)).2.2
      (by intro i hi r h; cases h),
   (C8_autoscaler_bounded_never_raises
      (fun i => if i == 5 then PollResult.found "demo-00001" else PollResult.notFoundYet)).2.1
      5 (by omega)
      (by
        intro j hj r
        have hj5 : (j == 5) = false := by
          simp only [beq_eq_false_iff_ne, ne_eq]
          omega
        simp [hj5])
      "demo-00001" (by simp)⟩

theorem latest_pod_of_spec (p : PodInfo) (ps : List PodInfo) :
    (latest_pod_of p ps = p ∨ latest_pod_of p ps ∈ ps) ∧
    p.creation_timestamp ≤ (latest_pod_of p ps).creation_timestamp ∧
    ∀ q ∈ ps, q.creation_timestamp ≤ (latest_pod_of p ps).creation_timestamp := by
  induction ps generalizing p with
  | nil =>
    refine ⟨Or.inl rfl, le_refl _, ?_⟩
    intro q hq
    cases hq
  | cons q ps ih =>
    have hstep : latest_pod_of p (q :: ps)
        = latest_pod_of (if p.creation_timestamp < q.creation_timestamp then q else p) ps := rfl
    obtain ⟨hm, hle, hall⟩ := ih (if p.creation_timestamp < q.creation_timestamp then q else p)
    by_cases hpq : p.creation_timestamp < q.creation_timestamp
    · rw [if_pos hpq] at hm hle hall
      rw [hstep, if_pos hpq]
      refine ⟨?_, le_trans (le_of_lt hpq) hle, ?_⟩
      · rcases hm with h | h
        · exact Or.inr (by rw [h]; exact List.mem_cons_self q ps)
        · exact Or.inr (List.mem_cons_of_mem q h)
      · intro q' hq'
        rcases List.mem_cons.mp hq' with h | h
        · rw [h]
          exact hle
        · exact hall q' h
    · rw [if_neg hpq] at hm hle hall
      rw [hstep, if_neg hpq]
      refine ⟨?_, hle, ?_⟩
      · rcases hm with h | h
        · exact Or.inl h
        · exact Or.inr (List.mem_cons_of_mem q h)
      · intro q' hq'
        rcases List.mem_cons.mp hq' with h | h
        · rw [h]
          exact le_trans (Nat.le_of_not_lt hpq) hle
        · exact hall q' h

/-- C9: log retrieval for an existing workload — with zero matching pods the
reply is an explanatory message, not an error; with matching pods the pod
with the latest creation timestamp is the one whose logs any successful
reply reports; and when that pod is in a non-log-readable phase the fetch is
attempted anyway and a failing fetch is answered with an informative
message rather than the transport error. -/
theorem C9_get_logs_pod_selection (st : ClusterState) (allPods : List PodInfo)
    (readLog : String → Except ApiErr String) (name ns : String)
    (tail_lines : Nat) (doc : KnativeServiceDoc)
    (hex : st.lookupService ns name = some doc) :
    (list_pods_for_service allPods name = [] →
      get_logs none st allPods readLog name ns tail_lines
        = .ok ⟨name, ns, none, none, none, "",
            some "No pods found for this app. The app may not be running yet or scaled to zero."⟩) ∧
    (∀ p ps, list_pods_for_service allPods name = p :: ps →
      (∀ q ∈ p :: ps,
        q.creation_timestamp ≤ (latest_pod_of p ps).creation_timestamp) ∧
      (∀ r, get_logs none st allPods readLog name ns tail_lines = .ok r →
        r.pod_name = some (latest_pod_of p ps).name) ∧
      ((latest_pod_of p ps).phase ≠ "Running" →
       (latest_pod_of p ps).phase ≠ "Succeeded" →
        ∀ e, readLog (latest_pod_of p ps).name = .error e →
          get_logs none st allPods readLog name ns tail_lines
            = .ok ⟨name, ns, some (latest_pod_of p ps).name,
                some (latest_pod_of p ps).phase, none, "",
                some ("Pod is in " ++ (latest_pod_of p ps).phase
                  ++ " state and logs are not available yet.")⟩)) := by
  constructor
  · intro hempty
    unfold get_logs
    rw [get_knative_service_none_fault, hex, hempty]
  · intro p ps hlist
    refine ⟨?_, ?_, ?_⟩
    · obtain ⟨-, hle, hall⟩ := latest_pod_of_spec p ps
      intro q hq
      rcases List.mem_cons.mp hq with h | h
      · rw [h]
        exact hle
      · exact hall q h
    · intro r hr
      unfold get_logs at hr
      rw [get_knative_service_none_fault, hex, hlist] at hr
      dsimp only at hr
      by_cases hphase : ((latest_pod_of p ps).phase == "Running"
          || (latest_pod_of p ps).phase == "Succeeded") = true
      · rw [if_pos hphase] at hr
        cases hread : readLog (latest_pod_of p ps).name with
        | ok logs =>
          rw [hread] at hr
          simp only [Except.ok.injEq] at hr
          rw [← hr]
        | error e =>
          rw [hread] at hr
          exact absurd hr (by simp)
      · rw [if_neg hphase] at hr
        cases hread : readLog (latest_pod_of p ps).name with
        | ok logs =>
          rw [hread] at hr
          simp only [Except.ok.injEq] at hr
          rw [← hr]
        | error e =>
          rw [hread] at hr
          simp only [Except.ok.injEq] at hr
          rw [← hr]
    · intro hnr hns e hread
      unfold get_logs
      rw [get_knative_service_none_fault, hex, hlist]
      dsimp only
      have hphase : ((latest_pod_of p ps).phase == "Running"
          || (latest_pod_of p ps).phase == "Succeeded") = false := by
        simp [hnr, hns]
      rw [hphase]
      simp only [Bool.false_eq_true, if_false]
      rw [hread]

/-- Witness for C9: the `demo` service exists but no pod carries its label,
so log retrieval answers the explanatory scaled-to-zero message. -/
theorem C9_get_logs_pod_selection_witness :
    get_logs none
        (emptyCluster.putService "default" "demo"
          (create_knative_service_spec exampleConfig "demo" "registry.example/demo:v1" []))
        [] (fun _ => .error ⟨500, "unreachable"⟩) "demo" "default" 100
      = .ok ⟨"demo", "default", none, none, none, "",
          some "No pods found for this app. The app may not be running yet or scaled to zero."⟩ :=
  (C9_get_logs_pod_selection
      (emptyCluster.putService "default" "demo"
        (create_knative_service_spec exampleConfig "demo" "registry.example/demo:v1" []))
      [] (fun _ => .error ⟨500, "unreachable"⟩) "demo" "default" 100
      (create_knative_service_spec exampleConfig "demo" "registry.example/demo:v1" [])
      (by rfl)).1 (by rfl)

end KserveApi
